import Mathlib

/-!
Shallow embedding of the `io_future_threadpool` crate of the
`rust-windows-io` repository, together with theorems settling the
claims about its specification.

The embedding models:
  * `src/io_future_threadpool/src/iocp_threadpool.rs`
    (`IocpResult`, `IocpFutureState`, `IocpFuture::poll`,
    `OverlappedAndIocpStateReference::process_iocp_completion`,
    `io_completion_function`, `start_async_io`);
  * `src/io_future_threadpool/src/stream.rs`
    (`AsyncTcpStream::new`, `connect`, `write_all`);
  * `src/io_future_threadpool/src/listener.rs`
    (`WsaFunctionCache::get_ptr`, `AsyncTcpListener::bind`, `accept`);
  * `src/io_future_threadpool/src/threadpool.rs` (`work_callback`).

OS calls, the caller-supplied operation closure and the completion
delivered by the OS are modelled as explicit oracle inputs; the side
effects a code path performs (locking, result-slot writes, waker
invocations, thread-pool arming/cancelling, heap reclamation, socket
configuration) are recorded as explicit event traces so that claims
about "which path does what, how many times, in which order" become
statements about those traces.
-/

namespace RustWindowsIo

/-! ## Basic machine-integer modelling -/

/-- The value a `u32` bit pattern denotes after `as i32` in Rust:
two's-complement reinterpretation of the low 32 bits. -/
def u32_as_i32 (x : Nat) : Int :=
  if x % 2 ^ 32 < 2 ^ 31 then ((x % 2 ^ 32 : Nat) : Int)
  else ((x % 2 ^ 32 : Nat) : Int) - 2 ^ 32

/-- `ERROR_IO_PENDING` from the generated Windows bindings, an `i32`
constant compared against `rc.io_result as i32` in `start_async_io`. -/
def ERROR_IO_PENDING : Int := 997

/-- Model of `std::io::Error` as the crate produces it: either an
OS-derived error (`from_raw_os_error` / `last_os_error`, carrying the
raw code) or the distinct "disconnected" error built with
`io::Error::new(io::ErrorKind::Other, "disconnected")` in `write_all`. -/
inductive IoError where
  | osError (code : Int)
  | disconnected
deriving DecidableEq, Repr

/-! ## `iocp_threadpool.rs`: result type and shared future state -/

/-- `IocpResult` (iocp_threadpool.rs:24): the `io_result : u32` and
`number_of_bytes_transferred : usize` of a completed operation. -/
structure IocpResult where
  io_result : Nat
  number_of_bytes_transferred : Nat
deriving DecidableEq, Repr

/-- `IocpResult::get_number_of_bytes_transferred` (iocp_threadpool.rs:31):
`Ok(n)` when `io_result == 0`, otherwise
`Err(io::Error::from_raw_os_error(self.io_result as i32))`. -/
def IocpResult.get_number_of_bytes_transferred (r : IocpResult) :
    Except IoError Nat :=
  if r.io_result = 0 then .ok r.number_of_bytes_transferred
  else .error (.osError (u32_as_i32 r.io_result))

/-- A `Waker`, abstracted to an identifier; the embedding only needs to
track which waker was stored and whether/when it is invoked. -/
abbrev Waker := Nat

/-- `IocpFutureState` (iocp_threadpool.rs:44): the result slot and the
notification (waker) slot, shared behind `Arc<Mutex<..>>`. -/
structure IocpFutureState where
  result : Option IocpResult
  waker : Option Waker
deriving DecidableEq, Repr

/-- `IocpFutureState::new` (iocp_threadpool.rs:72). -/
def IocpFutureState.new : IocpFutureState :=
  { result := none, waker := none }

/-- `Poll` from `std::task`. -/
inductive Poll (α : Type) where
  | ready (a : α)
  | pending
deriving DecidableEq, Repr

/-- `<IocpFuture as Future>::poll` (iocp_threadpool.rs:82): lock the
shared state; if the result slot is populated return `Ready` with it,
otherwise store a clone of the context's waker and return `Pending`.
Returns the poll outcome and the state after the call. -/
def IocpFuture.poll (shared_state : IocpFutureState) (cx_waker : Waker) :
    Poll IocpResult × IocpFutureState :=
  match shared_state.result with
  | some result => (.ready result, shared_state)
  | none => (.pending, { shared_state with waker := some cx_waker })

/-! ## Event traces

Each constructor records one observable side effect of the code paths
in `iocp_threadpool.rs`, in program order. `lockAcquire`/`lockRelease`
delimit the scope of the `MutexGuard` on the shared
`IocpFutureState`; `boxFree` is the reclamation of the heap-allocated
`OverlappedAndIocpStateReference` (the OS-owned → consumer-owned
ownership transition followed by `drop`). -/
inductive Event where
  | startThreadpoolIo
  | opCall
  | cancelThreadpoolIo
  | boxFree
  | lockAcquire
  | resultWrite (r : IocpResult)
  | wakerInvoke (w : Waker)
  | lockRelease
deriving DecidableEq, Repr

/-- `OverlappedAndIocpStateReference::process_iocp_completion`
(iocp_threadpool.rs:58): lock the shared state, store the
`IocpResult`, and — still inside the scope of the `MutexGuard`, which
is dropped only at the end of the function — call `wake_by_ref` on the
recorded waker when there is one. Returns the updated state and the
event trace of the call. -/
def process_iocp_completion (st : IocpFutureState)
    (io_result number_of_bytes_transferred : Nat) :
    IocpFutureState × List Event :=
  let r : IocpResult := ⟨io_result, number_of_bytes_transferred⟩
  let st' := { st with result := some r }
  let events :=
    [Event.lockAcquire, Event.resultWrite r]
      ++ (match st.waker with
          | some w => [Event.wakerInvoke w]
          | none => [])
      ++ [Event.lockRelease]
  (st', events)

/-- The environment `start_async_io` runs in: what the caller-supplied
`op` closure returns (`Some(bytes)` for synchronous completion, `None`
otherwise) and what `GetLastError()` reports right after `op` returns. -/
structure StartEnv where
  opSyncResult : Option Nat
  lastError : Nat
deriving DecidableEq, Repr

/-- The observable outcome of one `start_async_io` call: the shared
state at the moment the future is returned, whether the allocation was
relinquished to the OS (the pending branch, where only the completion
callback reclaims it), and the event trace of the call. -/
structure StartOutcome where
  state : IocpFutureState
  osOwned : Bool
  events : List Event
deriving DecidableEq, Repr

/-- The `rc` value `start_async_io` builds after `op` returns
(iocp_threadpool.rs:196): `{0, n}` when `op` returned `Some(n)`,
`{GetLastError(), 0}` when it returned `None`. -/
def start_async_io_rc (env : StartEnv) : IocpResult :=
  match env.opSyncResult with
  | some number_of_bytes_transferred => ⟨0, number_of_bytes_transferred⟩
  | none => ⟨env.lastError, 0⟩

/-- `start_async_io` (iocp_threadpool.rs:181): allocate the shared
state and the overlapped box, `StartThreadpoolIo`, invoke `op`, build
`rc` (see `start_async_io_rc`); if `rc.io_result as i32 ==
ERROR_IO_PENDING` leave the box to the completion callback, otherwise
`CancelThreadpoolIo`, drop the box, and store `rc` into the result
slot (under the lock) before returning the future. -/
def start_async_io (env : StartEnv) : StartOutcome :=
  let state := IocpFutureState.new
  let rc : IocpResult := start_async_io_rc env
  if u32_as_i32 rc.io_result = ERROR_IO_PENDING then
    { state := state
      osOwned := true
      events := [.startThreadpoolIo, .opCall] }
  else
    { state := { state with result := some rc }
      osOwned := false
      events := [.startThreadpoolIo, .opCall, .cancelThreadpoolIo, .boxFree,
                 .lockAcquire, .resultWrite rc, .lockRelease] }

/-- `io_completion_function` (iocp_threadpool.rs:93) viewed as what it
does to the operation's shared state: `Box::from_raw` reclaims the
allocation, `process_iocp_completion` stores the result and wakes, and
the box is dropped when the closure ends. Returns the updated state
and the callback's event trace. (The panic containment of the same
function is modelled separately by `io_completion_function_outcome`.) -/
def io_completion_callback_body (st : IocpFutureState)
    (io_result number_of_bytes_transferred : Nat) :
    IocpFutureState × List Event :=
  let (st', ev) := process_iocp_completion st io_result number_of_bytes_transferred
  (st', ev ++ [Event.boxFree])

/-- One full operation launched by `start_async_io`, under the OS
contract that exactly one completion is delivered per armed operation
that stays armed: when the call leaves the allocation OS-owned the
completion callback runs exactly once with the delivered
`(io_result, number_of_bytes_transferred)`; when the call cancelled
the armed expectation (`CancelThreadpoolIo`) no callback runs. Returns
the final shared state and the concatenated event trace. -/
def operation_lifecycle (env : StartEnv) (completion : Nat × Nat) :
    IocpFutureState × List Event :=
  let s := start_async_io env
  if s.osOwned then
    let (st', ev) := io_completion_callback_body s.state completion.1 completion.2
    (st', s.events ++ ev)
  else
    (s.state, s.events)

/-- Number of writes to the result slot recorded in a trace. -/
def resultWriteCount (tr : List Event) : Nat :=
  tr.countP fun e => match e with | .resultWrite _ => true | _ => false

/-- Number of reclamations of the overlapped allocation in a trace. -/
def boxFreeCount (tr : List Event) : Nat :=
  tr.countP fun e => match e with | .boxFree => true | _ => false

/-! ## `stream.rs`: `write_all` -/

/-- The loop body of `AsyncTcpStream::write_all` (stream.rs:83). The
result of each `poll_write(&buf[ndx..])` call is supplied by the
oracle `write`, indexed by the call number. Starting from offset `ndx`
(source: `let mut ndx = 0`), while `ndx < len`: await one write; an
`Err` is propagated by `?`; `sent == 0` returns the "disconnected"
error; otherwise `ndx += sent` and the loop continues. The embedding
returns the final offset on success (the source returns `Ok(())`;
`write_all` below projects it away). -/
def write_all_loop (write : Nat → Except IoError Nat) (len : Nat) :
    Nat → Nat → Except IoError Nat
  | ndx, call =>
    if _h : ndx < len then
      match write call with
      | .error e => .error e
      | .ok sent =>
        if _hs : sent = 0 then
          .error .disconnected
        else
          write_all_loop write len (ndx + sent) (call + 1)
    else
      .ok ndx
termination_by ndx _ => len - ndx
decreasing_by simp_wf; omega

/-- `AsyncTcpStream::write_all` (stream.rs:83) for a buffer of length
`len`, with each `poll_write` call's result supplied by `write`. -/
def write_all (write : Nat → Except IoError Nat) (len : Nat) :
    Except IoError Unit :=
  (write_all_loop write len 0 0).map fun _ => ()

/-! ## `listener.rs`: the extension-function cache -/

/-- What one `WsaFunctionCache::get_ptr` call (listener.rs:34) returns
and does, for the cache slot selected by the listener's address
family. `cacheSlot` is the current value of the `AtomicPtr` for that
family (pointers are modelled as `Nat`, with `0` the null pointer);
`ioctlRc` and `ioctlFnptr` are the return code and out-pointer the
`WSAIoctl` query would produce, `osErr` the OS error code after a
failing query. `queried` records whether the `WSAIoctl` call was
performed, `cacheAfter` the slot's value after the call.

Mirrors the source exactly: load the slot; if the loaded pointer
`is_null()`, return it as `Ok` at once; otherwise perform the ioctl
query and, on `rc == 0`, store the returned pointer and return it,
else return `last_os_error()`. -/
structure GetPtrOutcome where
  result : Except IoError Nat
  cacheAfter : Nat
  queried : Bool
deriving Repr

/-- `WsaFunctionCache::get_ptr` (listener.rs:34), as found in the
source (including the `if ret.is_null() { return Ok(ret); }` branch). -/
def WsaFunctionCache.get_ptr (cacheSlot : Nat) (ioctlRc : Int)
    (ioctlFnptr : Nat) (osErr : Int) : GetPtrOutcome :=
  let ret := cacheSlot
  if ret = 0 then
    { result := .ok ret, cacheAfter := cacheSlot, queried := false }
  else if ioctlRc = 0 then
    { result := .ok ioctlFnptr, cacheAfter := ioctlFnptr, queried := true }
  else
    { result := .error (.osError osErr), cacheAfter := cacheSlot, queried := true }

/-- What `WsaFunctionCache::get_ptr` was evidently intended to do, and
what the spec describes (modelled from the spec for comparison): if
the cached pointer is non-null return it without querying; otherwise
perform the query, store the non-null result, and return it. -/
def WsaFunctionCache.get_ptr_spec (cacheSlot : Nat) (ioctlRc : Int)
    (ioctlFnptr : Nat) (osErr : Int) : GetPtrOutcome :=
  let ret := cacheSlot
  if ret ≠ 0 then
    { result := .ok ret, cacheAfter := cacheSlot, queried := false }
  else if ioctlRc = 0 then
    { result := .ok ioctlFnptr, cacheAfter := ioctlFnptr, queried := true }
  else
    { result := .error (.osError osErr), cacheAfter := cacheSlot, queried := true }

/-! ## `stream.rs` / `listener.rs`: constructors and `accept` -/

/-- Address family of a bound socket (`SocketAddr::V4` / `V6`). -/
inductive AddrFamily where
  | v4
  | v6
deriving DecidableEq, Repr

/-- Socket-configuration effects performed by the constructors, in
program order: `suppress sock ok` is one
`disable_callbacks_on_synchronous_completion` call on socket `sock`
that succeeded iff `ok`; `tpioCreate sock` is one successful
`Tpio::new` (a `CreateThreadpoolIo` completion registration) for
`sock`. -/
inductive SockEffect where
  | suppress (sock : Nat) (ok : Bool)
  | tpioCreate (sock : Nat)
deriving DecidableEq, Repr

/-- Oracle for `AsyncTcpStream::new` (stream.rs:21): the results of
its `disable_callbacks_on_synchronous_completion` and `Tpio::new`
calls. -/
structure StreamNewEnv where
  suppress : Except IoError Unit
  tpio : Except IoError Unit

/-- `AsyncTcpStream::new` (stream.rs:21): apply the suppressor to the
stream's socket (`?`), create its `Tpio` (`?`), return the stream.
Returns the outcome and the trace of socket effects. -/
def AsyncTcpStream.new (sock : Nat) (env : StreamNewEnv) :
    Except IoError Unit × List SockEffect :=
  match env.suppress with
  | .error e => (.error e, [.suppress sock false])
  | .ok _ =>
    match env.tpio with
    | .error e => (.error e, [.suppress sock true])
    | .ok _ => (.ok (), [.suppress sock true, .tpioCreate sock])

/-- `AsyncTcpStream::connect` (stream.rs:27): `TcpStream::connect`
(`?`, oracle result carries the connected socket), then
`AsyncTcpStream::new`. -/
def AsyncTcpStream.connect (connectResult : Except IoError Nat)
    (env : StreamNewEnv) : Except IoError Unit × List SockEffect :=
  match connectResult with
  | .error e => (.error e, [])
  | .ok sock => AsyncTcpStream.new sock env

/-- Oracle for `AsyncTcpListener::bind` (listener.rs:110): the results
of `TcpListener::bind` (carrying the listening socket),
`disable_callbacks_on_synchronous_completion`,
`WsaFunctionCache::get_acceptex` and `Tpio::new`. -/
structure BindEnv where
  bindResult : Except IoError Nat
  suppress : Except IoError Unit
  getAcceptex : Except IoError Nat
  tpio : Except IoError Unit

/-- `AsyncTcpListener::bind` (listener.rs:110): bind the listener
(`?`), apply the suppressor (`?`), resolve `AcceptEx` (`?`), create
the listener's `Tpio` (`?`). -/
def AsyncTcpListener.bind (env : BindEnv) :
    Except IoError Unit × List SockEffect :=
  match env.bindResult with
  | .error e => (.error e, [])
  | .ok sock =>
  match env.suppress with
  | .error e => (.error e, [.suppress sock false])
  | .ok _ =>
  match env.getAcceptex with
  | .error e => (.error e, [.suppress sock true])
  | .ok _ =>
  match env.tpio with
  | .error e => (.error e, [.suppress sock true])
  | .ok _ => (.ok (), [.suppress sock true, .tpioCreate sock])

/-- Outcome of one `AsyncTcpListener::accept` call: `ok` returns the
accepted stream, `err` a recoverable `io::Error`, `panicked` the
`panic!` in the nonzero-transferred-bytes branch. -/
inductive AcceptOutcome where
  | ok
  | err (e : IoError)
  | panicked (msg : String)
deriving DecidableEq, Repr

/-- The arguments `accept` passes to the resolved `AcceptEx` function
pointer: the receive buffer's length, `dwReceiveDataLength` (the
payload allowance), and the two address-structure lengths. -/
structure AcceptExCall where
  receiveBuffLen : Nat
  receiveDataLen : Nat
  localAddressLen : Nat
  remoteAddressLen : Nat
deriving DecidableEq, Repr

/-- Oracle for `AsyncTcpListener::accept` (listener.rs:154): the
listener's `local_addr()` (used both in `_create_accept_socket` and
for `socket_addr_size`), whether `WSASocketW` produced a socket (with
the OS error otherwise), the suppressor result on the new socket, the
`IocpResult` the awaited `start_async_io` future resolves to, the
`setsockopt` return code for the accept-context promotion, and the
oracle for the final `AsyncTcpStream::new`. `newSock` identifies the
freshly created accept socket. -/
structure AcceptEnv where
  newSock : Nat
  localAddr : Except IoError AddrFamily
  socketCreateOk : Bool
  socketErr : Int
  suppress : Except IoError Unit
  completion : IocpResult
  setsockoptRc : Int
  streamNew : StreamNewEnv

/-- `AsyncTcpListener::accept` (listener.rs:154): create the accept
socket (`_create_accept_socket`: `local_addr` then `WSASocketW`, both
`?`), apply the suppressor (`?`), compute `socket_addr_size` from the
family (16 + 16 for V4, 16 + 28 for V6), issue `AcceptEx` through
`start_async_io` with a `2 * socket_addr_size` buffer and
`dwReceiveDataLength = 0`, await; extract the byte count (`?`); a
nonzero count panics with "Received socket data!?"; promote the accept
context via `setsockopt` (nonzero return is an error); finally wrap
the socket with `AsyncTcpStream::new` (`?`). Returns the outcome, the
`AcceptEx` call arguments when the call was made, and the socket
effects on the new socket. -/
def AsyncTcpListener.accept (env : AcceptEnv) :
    AcceptOutcome × Option AcceptExCall × List SockEffect :=
  match env.localAddr with
  | .error e => (.err e, none, [])
  | .ok fam =>
  if env.socketCreateOk = false then
    (.err (.osError env.socketErr), none, [])
  else
  match env.suppress with
  | .error e => (.err e, none, [.suppress env.newSock false])
  | .ok _ =>
  let socket_addr_size := 16 + (match fam with | .v4 => 16 | .v6 => 28)
  let call : AcceptExCall :=
    { receiveBuffLen := 2 * socket_addr_size
      receiveDataLen := 0
      localAddressLen := socket_addr_size
      remoteAddressLen := socket_addr_size }
  let ret := env.completion
  match ret.get_number_of_bytes_transferred with
  | .error e => (.err e, some call, [.suppress env.newSock true])
  | .ok n =>
  if n ≠ 0 then
    (.panicked "Received socket data!?", some call, [.suppress env.newSock true])
  else
  if env.setsockoptRc ≠ 0 then
    (.err (.osError env.setsockoptRc), some call, [.suppress env.newSock true])
  else
    let (res, ev) := AsyncTcpStream.new env.newSock env.streamNew
    (match res with | .error e => .err e | .ok _ => .ok,
     some call,
     [SockEffect.suppress env.newSock true] ++ ev)

/-- Count of successful suppressor applications to `sock` in a trace. -/
def suppressOkCount (sock : Nat) (tr : List SockEffect) : Nat :=
  tr.countP fun e => match e with
    | .suppress s true => s = sock
    | _ => false

/-- Count of `Tpio` completion registrations created for `sock`. -/
def tpioCreateCount (sock : Nat) (tr : List SockEffect) : Nat :=
  tr.countP fun e => match e with
    | .tpioCreate s => s = sock
    | _ => false

/-! ## OS-callback entry points: panic containment

A computation running inside a callback is modelled as
`Except String Unit`: `.error p` is a panic with payload `p`. The
`extern "system"` entry points wrap their bodies in
`std::panic::catch_unwind`, which turns a panic into an `Err` value at
the callback boundary; the outcome type distinguishes a normal return,
the `std::process::abort()` both callbacks execute on a caught panic,
and the (never produced) propagation of unwinding into the
foreign-owned frames of the OS. -/
inductive CallbackOutcome where
  | returned
  | aborted
  | unwoundIntoOs (p : String)
deriving DecidableEq, Repr

/-- `io_completion_function` (iocp_threadpool.rs:93): the body
(reclaiming the box and running `process_iocp_completion`) runs under
`catch_unwind`; `unwound.is_err()` triggers `std::process::abort()`. -/
def io_completion_function_outcome (body : Except String Unit) :
    CallbackOutcome :=
  match body with
  | .ok _ => .returned
  | .error _ => .aborted

/-- `work_callback` (threadpool.rs:72): the body (reconstructing the
`WorkItem` and polling its future) runs under `catch_unwind`;
`unwound.is_err()` triggers `std::process::abort()`. -/
def work_callback_outcome (body : Except String Unit) :
    CallbackOutcome :=
  match body with
  | .ok _ => .returned
  | .error _ => .aborted

/-- A trace invokes wakers only after releasing the lock: every
`wakerInvoke` is preceded by some `lockRelease`. -/
def wakerInvokedOnlyAfterRelease (tr : List Event) : Prop :=
  ∀ i w, tr.get? i = some (.wakerInvoke w) →
    ∃ j, j < i ∧ tr.get? j = some (.lockRelease)

/-!
# Theorems settling the claims
-/

/-- `rc.io_result as i32 == ERROR_IO_PENDING` holds for a genuine
`u32` value exactly when the value is 997. -/
theorem u32_as_i32_eq_pending {x : Nat} (h : x < 2 ^ 32) :
    u32_as_i32 x = ERROR_IO_PENDING ↔ x = 997 := by
  unfold u32_as_i32 ERROR_IO_PENDING
  rw [Nat.mod_eq_of_lt h]
  split <;> omega

/-- Branch-level characterization of `start_async_io`: the two
possible outcomes, selected by the pending test on `rc`. -/
theorem start_async_io_eq (env : StartEnv) :
    start_async_io env =
      if u32_as_i32 (start_async_io_rc env).io_result = ERROR_IO_PENDING then
        { state := ⟨none, none⟩, osOwned := true,
          events := [.startThreadpoolIo, .opCall] }
      else
        { state := ⟨some (start_async_io_rc env), none⟩, osOwned := false,
          events := [.startThreadpoolIo, .opCall, .cancelThreadpoolIo, .boxFree,
                     .lockAcquire, .resultWrite (start_async_io_rc env),
                     .lockRelease] } := by
  unfold start_async_io IocpFutureState.new
  rfl

/-- The pending test of `start_async_io` succeeds exactly when `op`
returned `None` and `GetLastError()` returned 997. -/
theorem pending_cond_iff (env : StartEnv) (h : env.lastError < 2 ^ 32) :
    (u32_as_i32 (start_async_io_rc env).io_result = ERROR_IO_PENDING) ↔
      (env.opSyncResult = none ∧ env.lastError = 997) := by
  rcases henv : env.opSyncResult with _ | n
  · simp [start_async_io_rc, henv, u32_as_i32_eq_pending h]
  · simp only [start_async_io_rc, henv]
    constructor
    · intro hx
      exfalso
      simp only [u32_as_i32, ERROR_IO_PENDING] at hx
      norm_num at hx
    · rintro ⟨hx, -⟩
      exact absurd hx (by simp)

/-- C1: For every operation launched by `start_async_io`, under the
exactly-one-completion-per-armed-operation OS contract encoded in
`operation_lifecycle`, the full trace contains exactly one write to
the result slot and exactly one reclamation of the
`OverlappedOperationState` allocation (the single OS-owned →
consumer-owned transition); moreover the synchronous path alone
performs the write and the reclamation exactly when the operation did
not go pending, so exactly one of the two completion paths does each. -/
theorem operation_single_completion (env : StartEnv) (completion : Nat × Nat) :
    resultWriteCount (operation_lifecycle env completion).2 = 1 ∧
    boxFreeCount (operation_lifecycle env completion).2 = 1 ∧
    resultWriteCount (start_async_io env).events =
      (if (start_async_io env).osOwned then 0 else 1) ∧
    boxFreeCount (start_async_io env).events =
      (if (start_async_io env).osOwned then 0 else 1) := by
  by_cases hc : u32_as_i32 (start_async_io_rc env).io_result = ERROR_IO_PENDING <;>
    simp [operation_lifecycle, io_completion_callback_body,
      process_iocp_completion, start_async_io_eq, hc, resultWriteCount,
      boxFreeCount, List.countP_cons, List.countP_nil, List.countP_append]

/-- C2: `start_async_io` relinquishes the allocation to the OS iff
`op` reported no synchronous result and `GetLastError()` returned the
`ERROR_IO_PENDING` sentinel (997); in that case the result slot is
still empty and neither `CancelThreadpoolIo` nor the reclamation
happens in this call. In every other case the call's trace is exactly
`StartThreadpoolIo`, the `op` call, `CancelThreadpoolIo`, the
immediate reclamation, and then — before the future is returned — the
locked store of `rc` (the byte count with code 0, or the OS error)
into the result slot. -/
theorem start_async_io_ownership (env : StartEnv)
    (h : env.lastError < 2 ^ 32) :
    ((start_async_io env).osOwned = true ↔
      env.opSyncResult = none ∧ env.lastError = 997) ∧
    ((start_async_io env).osOwned = true →
      (start_async_io env).state.result = none ∧
      (start_async_io env).events = [.startThreadpoolIo, .opCall]) ∧
    ((start_async_io env).osOwned = false →
      (start_async_io env).state.result = some (start_async_io_rc env) ∧
      (start_async_io env).events =
        [.startThreadpoolIo, .opCall, .cancelThreadpoolIo, .boxFree,
         .lockAcquire, .resultWrite (start_async_io_rc env), .lockRelease]) := by
  by_cases hc : u32_as_i32 (start_async_io_rc env).io_result = ERROR_IO_PENDING
  · refine ⟨?_, fun _ => ?_, fun hfalse => ?_⟩
    · rw [← pending_cond_iff env h]
      simp [start_async_io_eq, hc]
    · simp [start_async_io_eq, hc]
    · simp [start_async_io_eq, hc] at hfalse
  · refine ⟨?_, fun habs => ?_, fun _ => ?_⟩
    · rw [← pending_cond_iff env h]
      simp [start_async_io_eq, hc]
    · simp [start_async_io_eq, hc] at habs
    · simp [start_async_io_eq, hc]

/-- Witness for `start_async_io_ownership` at a concrete pending
environment. -/
theorem start_async_io_ownership_witness :
    (997 : Nat) < 2 ^ 32 ∧
    (start_async_io ⟨none, 997⟩).osOwned = true :=
  ⟨by norm_num,
   (start_async_io_ownership ⟨none, 997⟩ (by norm_num)).1.mpr ⟨rfl, rfl⟩⟩

/-- C3: polling an `IocpFuture` returns `Ready` with the stored result
when the result slot is populated, and otherwise records a clone of
the context's waker in the notification slot and returns `Pending`. -/
theorem iocp_future_poll_spec (st : IocpFutureState) (w : Waker) :
    (∀ r, st.result = some r → IocpFuture.poll st w = (.ready r, st)) ∧
    (st.result = none →
      IocpFuture.poll st w = (.pending, { st with waker := some w })) := by
  cases hr : st.result <;> simp [IocpFuture.poll, hr]

/-- Witness for `iocp_future_poll_spec` at a concrete populated and a
concrete empty state. -/
theorem iocp_future_poll_spec_witness :
    IocpFuture.poll ⟨some ⟨0, 4⟩, none⟩ 7 = (.ready ⟨0, 4⟩, ⟨some ⟨0, 4⟩, none⟩) ∧
    IocpFuture.poll ⟨none, none⟩ 7 = (.pending, ⟨none, some 7⟩) :=
  ⟨(iocp_future_poll_spec ⟨some ⟨0, 4⟩, none⟩ 7).1 ⟨0, 4⟩ rfl,
   (iocp_future_poll_spec ⟨none, none⟩ 7).2 rfl⟩

/-- C5: extracting a completed operation's result yields `Ok` with the
stored byte count when the stored OS code is 0 and an error derived
from the code otherwise; and the pending-then-asynchronous-completion
scenario with success and 0 bytes resolves to `Ok 0`. -/
theorem iocp_result_extraction :
    (∀ r : IocpResult, r.io_result = 0 →
      r.get_number_of_bytes_transferred = .ok r.number_of_bytes_transferred) ∧
    (∀ r : IocpResult, r.io_result ≠ 0 →
      r.get_number_of_bytes_transferred =
        .error (.osError (u32_as_i32 r.io_result))) ∧
    (operation_lifecycle ⟨none, 997⟩ (0, 0)).1.result = some ⟨0, 0⟩ ∧
    (IocpResult.mk 0 0).get_number_of_bytes_transferred = .ok 0 := by
  refine ⟨?_, ?_, ?_, rfl⟩
  · intro r hr
    simp [IocpResult.get_number_of_bytes_transferred, hr]
  · intro r hr
    simp [IocpResult.get_number_of_bytes_transferred, hr]
  · rfl

/-- Witness for `iocp_result_extraction` at concrete results. -/
theorem iocp_result_extraction_witness :
    (IocpResult.mk 0 5).get_number_of_bytes_transferred = .ok 5 ∧
    (IocpResult.mk 10054 3).get_number_of_bytes_transferred =
      .error (.osError (u32_as_i32 10054)) :=
  ⟨iocp_result_extraction.1 ⟨0, 5⟩ rfl,
   iocp_result_extraction.2.1 ⟨10054, 3⟩ (by norm_num)⟩

/-- C9: both OS-callback entry points catch any panic of their body at
the callback boundary and convert it to `std::process::abort`; no
unwinding outcome ever propagates into the foreign-owned frames, and a
normally returning body returns normally. -/
theorem callback_panic_containment (body : Except String Unit) :
    (∀ p, io_completion_function_outcome body ≠ .unwoundIntoOs p) ∧
    (∀ p, work_callback_outcome body ≠ .unwoundIntoOs p) ∧
    (∀ p, body = .error p →
      io_completion_function_outcome body = .aborted ∧
      work_callback_outcome body = .aborted) ∧
    (body = .ok () →
      io_completion_function_outcome body = .returned ∧
      work_callback_outcome body = .returned) := by
  cases body <;>
    simp [io_completion_function_outcome, work_callback_outcome]

/-- Witness for `callback_panic_containment`: a panicking body aborts,
a clean body returns. -/
theorem callback_panic_containment_witness :
    (io_completion_function_outcome (.error "boom") = .aborted ∧
      work_callback_outcome (.error "boom") = .aborted) ∧
    (io_completion_function_outcome (.ok ()) = .returned ∧
      work_callback_outcome (.ok ()) = .returned) :=
  ⟨(callback_panic_containment (.error "boom")).2.2.1 "boom" rfl,
   (callback_panic_containment (.ok ())).2.2.2 rfl⟩

/-- C4 counterexample: in the asynchronous completion path with a
recorded waker (here waker 0, completion success with 0 bytes), the
trace of `process_iocp_completion` does NOT invoke the waker only
after releasing the lock — the `wake_by_ref` call happens at trace
position 2, before the `MutexGuard` is dropped at position 3. -/
theorem process_wake_not_after_release :
    ¬ wakerInvokedOnlyAfterRelease
        (process_iocp_completion ⟨none, some 0⟩ 0 0).2 := by
  intro hclaim
  obtain ⟨j, hj, hget⟩ := hclaim 2 0 rfl
  interval_cases j <;> simp [process_iocp_completion] at hget

/-- C4 (amended): the lock around the result/notification pair is held
across the result-slot write, and — when the asynchronous completion
path finds a recorded waker — also across the waker invocation: the
trace is exactly acquire, result write, wake, release, so the waker is
invoked strictly before the lock is released. -/
theorem process_iocp_completion_wake_while_locked (st : IocpFutureState)
    (io_result n : Nat) (w : Waker) (h : st.waker = some w) :
    (process_iocp_completion st io_result n).2 =
      [.lockAcquire, .resultWrite ⟨io_result, n⟩, .wakerInvoke w,
       .lockRelease] ∧
    (process_iocp_completion st io_result n).1 =
      { st with result := some ⟨io_result, n⟩ } := by
  simp [process_iocp_completion, h]

/-- Witness for `process_iocp_completion_wake_while_locked` at a
concrete state with recorded waker 3. -/
theorem process_iocp_completion_wake_while_locked_witness :
    (process_iocp_completion ⟨none, some 3⟩ 0 4).2 =
      [.lockAcquire, .resultWrite ⟨0, 4⟩, .wakerInvoke 3, .lockRelease] :=
  (process_iocp_completion_wake_while_locked ⟨none, some 3⟩ 0 4 3 rfl).1

/-- If the `write_all` loop returns `Ok`, the final offset covers the
whole buffer (induction on the remaining length). -/
theorem write_all_loop_ok_le (write : Nat → Except IoError Nat) (len : Nat) :
    ∀ d ndx call ndx', len - ndx ≤ d →
      write_all_loop write len ndx call = .ok ndx' → len ≤ ndx' := by
  intro d
  induction d with
  | zero =>
    intro ndx call ndx' hd hloop
    rw [write_all_loop] at hloop
    rw [dif_neg (by omega)] at hloop
    cases hloop
    omega
  | succ d ih =>
    intro ndx call ndx' hd hloop
    rw [write_all_loop] at hloop
    by_cases hlt : ndx < len
    · rw [dif_pos hlt] at hloop
      cases hw : write call with
      | error e => rw [hw] at hloop; cases hloop
      | ok sent =>
        simp only [hw] at hloop
        by_cases hs : sent = 0
        · rw [dif_pos hs] at hloop; cases hloop
        · rw [dif_neg hs] at hloop
          exact ih (ndx + sent) (call + 1) ndx' (by omega) hloop
    · rw [dif_neg hlt] at hloop
      cases hloop
      omega

/-- If the `write_all` loop returns an error, it is either an error
reported by one of the consumed write calls, or the "disconnected"
error raised because a consumed write call reported 0 bytes. -/
theorem write_all_loop_error_src (write : Nat → Except IoError Nat)
    (len : Nat) :
    ∀ d ndx call e, len - ndx ≤ d →
      write_all_loop write len ndx call = .error e →
      (∃ i, call ≤ i ∧ write i = .error e) ∨
      (e = .disconnected ∧ ∃ i, call ≤ i ∧ write i = .ok 0) := by
  intro d
  induction d with
  | zero =>
    intro ndx call e hd hloop
    rw [write_all_loop] at hloop
    rw [dif_neg (by omega)] at hloop
    cases hloop
  | succ d ih =>
    intro ndx call e hd hloop
    rw [write_all_loop] at hloop
    by_cases hlt : ndx < len
    · rw [dif_pos hlt] at hloop
      cases hw : write call with
      | error e' =>
        rw [hw] at hloop
        cases hloop
        exact Or.inl ⟨call, le_refl call, hw⟩
      | ok sent =>
        simp only [hw] at hloop
        by_cases hs : sent = 0
        · rw [dif_pos hs] at hloop
          cases hloop
          exact Or.inr ⟨rfl, call, le_refl call, hs ▸ hw⟩
        · rw [dif_neg hs] at hloop
          rcases ih (ndx + sent) (call + 1) e (by omega) hloop with
            ⟨i, hi, hwi⟩ | ⟨he, i, hi, hwi⟩
          · exact Or.inl ⟨i, by omega, hwi⟩
          · exact Or.inr ⟨he, i, by omega, hwi⟩
    · rw [dif_neg hlt] at hloop
      cases hloop

/-- C6: for a buffer of length `len`, `write_all` returns `Ok` only
when the offset advanced by the reported byte counts has covered all
`len` bytes (never success with fewer bytes written); any error of a
write call is propagated as the loop's own error; and a write call
reporting 0 bytes while bytes remain makes the loop return the
distinct "disconnected" error at once instead of looping; every error
`write_all` returns is either one reported by a consumed write call or
the "disconnected" error caused by a consumed zero-byte report. -/
theorem write_all_correct (write : Nat → Except IoError Nat) (len : Nat) :
    (∀ ndx, write_all_loop write len 0 0 = .ok ndx → len ≤ ndx) ∧
    (write_all write len = .ok () →
      ∃ ndx, write_all_loop write len 0 0 = .ok ndx ∧ len ≤ ndx) ∧
    (∀ e, write_all write len = .error e →
      (∃ i, write i = .error e) ∨
      (e = .disconnected ∧ ∃ i, write i = .ok 0)) ∧
    (∀ ndx call e, ndx < len → write call = .error e →
      write_all_loop write len ndx call = .error e) ∧
    (∀ ndx call, ndx < len → write call = .ok 0 →
      write_all_loop write len ndx call = .error .disconnected) := by
  refine ⟨?_, ?_, ?_, ?_, ?_⟩
  · intro ndx hloop
    exact write_all_loop_ok_le write len (len - 0) 0 0 ndx (le_refl _) hloop
  · intro hok
    unfold write_all at hok
    cases hloop : write_all_loop write len 0 0 with
    | error e =>
      rw [hloop] at hok
      simp [Except.map] at hok
    | ok ndx =>
      exact ⟨ndx, rfl,
        write_all_loop_ok_le write len (len - 0) 0 0 ndx (le_refl _) hloop⟩
  · intro e herr
    unfold write_all at herr
    cases hloop : write_all_loop write len 0 0 with
    | error e' =>
      rw [hloop] at herr
      simp only [Except.map] at herr
      cases herr
      rcases write_all_loop_error_src write len (len - 0) 0 0 e
          (le_refl _) hloop with ⟨i, _, hwi⟩ | ⟨he, i, _, hwi⟩
      · exact Or.inl ⟨i, hwi⟩
      · exact Or.inr ⟨he, i, hwi⟩
    | ok ndx =>
      rw [hloop] at herr
      simp [Except.map] at herr
  · intro ndx call e hlt hw
    rw [write_all_loop, dif_pos hlt, hw]
  · intro ndx call hlt hw
    rw [write_all_loop, dif_pos hlt, hw]
    simp

/-- Witness for `write_all_correct`: with every write reporting 3
bytes, a 5-byte buffer finishes at offset 6 ≥ 5; with the first write
reporting 0 bytes, the loop returns the "disconnected" error. -/
theorem write_all_correct_witness :
    (write_all_loop (fun _ => .ok 3) 5 0 0 = .ok 6 ∧ 5 ≤ 6) ∧
    write_all_loop (fun _ => .ok 0) 5 0 0 = .error .disconnected := by
  have h6 : write_all_loop (fun _ => .ok 3) 5 0 0 = .ok 6 := by
    rw [write_all_loop]
    norm_num
    rw [write_all_loop]
    norm_num
    rw [write_all_loop]
    norm_num
  exact ⟨⟨h6, (write_all_correct (fun _ => .ok 3) 5).1 6 h6⟩,
    (write_all_correct (fun _ => .ok 0) 5).2.2.2.2 0 0 (by norm_num) rfl⟩

/-- C7: `accept` never returns a stream for which the completion
reported a nonzero transferred-byte count: an `ok` return forces a
successful completion with 0 bytes; the `AcceptEx` call, when made,
passes `dwReceiveDataLength = 0` and a buffer sized exactly
`2 * (16 + 16)` (V4) or `2 * (16 + 28)` (V6) for the two address
structures; and a successful completion with nonzero bytes reaches the
`panic!("Received socket data!?")`, not a recoverable `Err`. -/
theorem accept_call_characterization (env : AcceptEnv) (c : AcceptExCall)
    (hc : (AsyncTcpListener.accept env).2.1 = some c) :
    ∃ fam, env.localAddr = .ok fam ∧
      c = ⟨2 * (16 + (match fam with | .v4 => 16 | .v6 => 28)), 0,
           16 + (match fam with | .v4 => 16 | .v6 => 28),
           16 + (match fam with | .v4 => 16 | .v6 => 28)⟩ := by
  rcases hla : env.localAddr with e | fam
  · simp [AsyncTcpListener.accept, hla] at hc
  · refine ⟨fam, rfl, ?_⟩
    cases hsc : env.socketCreateOk <;>
      rcases hsup : env.suppress with e | ⟨⟩ <;>
        by_cases hio : env.completion.io_result = 0 <;>
          by_cases hn : env.completion.number_of_bytes_transferred = 0 <;>
            by_cases hsk : env.setsockoptRc = 0 <;>
              simp_all [AsyncTcpListener.accept, AsyncTcpStream.new,
                IocpResult.get_number_of_bytes_transferred]

/-- C7: `accept` never returns a stream for which the completion
reported a nonzero transferred-byte count: an `ok` return forces a
successful completion with 0 bytes; the `AcceptEx` call, when made,
passes `dwReceiveDataLength = 0` and a buffer sized exactly
`2 * (16 + 16)` (V4) or `2 * (16 + 28)` (V6) for the two address
structures; and a successful completion with nonzero bytes reaches the
`panic!("Received socket data!?")`, not a recoverable `Err`. -/
theorem accept_no_transferred_bytes (env : AcceptEnv) :
    ((AsyncTcpListener.accept env).1 = .ok →
      env.completion.io_result = 0 ∧
      env.completion.number_of_bytes_transferred = 0) ∧
    (∀ c, (AsyncTcpListener.accept env).2.1 = some c →
      c.receiveDataLen = 0 ∧
      ∃ fam, env.localAddr = .ok fam ∧
        c.localAddressLen = 16 + (match fam with | .v4 => 16 | .v6 => 28) ∧
        c.remoteAddressLen = c.localAddressLen ∧
        c.receiveBuffLen = 2 * c.localAddressLen) ∧
    (∀ fam, env.localAddr = .ok fam → env.socketCreateOk = true →
      env.suppress = .ok () → env.completion.io_result = 0 →
      env.completion.number_of_bytes_transferred ≠ 0 →
      (AsyncTcpListener.accept env).1 = .panicked "Received socket data!?") := by
  refine ⟨?_, ?_, ?_⟩
  · intro hok
    rcases hla : env.localAddr with e | fam <;>
      cases hsc : env.socketCreateOk <;>
        rcases hsup : env.suppress with e | ⟨⟩ <;>
          by_cases hio : env.completion.io_result = 0 <;>
            by_cases hn : env.completion.number_of_bytes_transferred = 0 <;>
              simp_all [AsyncTcpListener.accept, AsyncTcpStream.new,
                IocpResult.get_number_of_bytes_transferred]
  · intro c hc
    obtain ⟨fam, hfam, hc'⟩ := accept_call_characterization env c hc
    subst hc'
    exact ⟨rfl, fam, hfam, rfl, rfl, rfl⟩
  · intro fam hfam hsc hsup hio hn
    simp [AsyncTcpListener.accept, hfam, hsc, hsup,
      IocpResult.get_number_of_bytes_transferred, hio, hn]

/-- Witness for `accept_no_transferred_bytes`: a fully successful
accept environment (V4, success completion with 0 bytes) yields
`io_result = 0 ∧ bytes = 0`; a success completion with 2 bytes
panics. -/
theorem accept_no_transferred_bytes_witness :
    ((0 : Nat) = 0 ∧ (0 : Nat) = 0) ∧
    (AsyncTcpListener.accept
        ⟨1, .ok .v4, true, 0, .ok (), ⟨0, 2⟩, 0, ⟨.ok (), .ok ()⟩⟩).1 =
      .panicked "Received socket data!?" :=
  ⟨(accept_no_transferred_bytes
      ⟨1, .ok .v4, true, 0, .ok (), ⟨0, 0⟩, 0, ⟨.ok (), .ok ()⟩⟩).1 rfl,
   (accept_no_transferred_bytes
      ⟨1, .ok .v4, true, 0, .ok (), ⟨0, 2⟩, 0, ⟨.ok (), .ok ()⟩⟩).2.2
     .v4 rfl rfl rfl rfl (by norm_num)⟩

/-- C8: the first extension-function lookup on an empty (null) cache
slot returns `Ok` with the null pointer without ever performing the
`WSAIoctl` query or storing anything, while the intended (spec)
behaviour performs the query, stores the non-null pointer and returns
it; conversely a populated slot makes the code repeat the query on
every call, while the intended behaviour returns the cached pointer
without querying. The null test in `get_ptr` is inverted. -/
theorem get_ptr_first_lookup_bug :
    WsaFunctionCache.get_ptr 0 0 12345 0 =
      { result := .ok 0, cacheAfter := 0, queried := false } ∧
    WsaFunctionCache.get_ptr_spec 0 0 12345 0 =
      { result := .ok 12345, cacheAfter := 12345, queried := true } ∧
    WsaFunctionCache.get_ptr 500 0 12345 0 =
      { result := .ok 12345, cacheAfter := 12345, queried := true } ∧
    WsaFunctionCache.get_ptr_spec 500 0 12345 0 =
      { result := .ok 500, cacheAfter := 500, queried := false } := by
  refine ⟨rfl, ?_, ?_, ?_⟩ <;>
    simp [WsaFunctionCache.get_ptr, WsaFunctionCache.get_ptr_spec]

/-- C10: every constructor that returns `Ok` has, before handing the
value to the caller, successfully applied the synchronous-completion
suppressor to the socket and created exactly one `Tpio` completion
registration for it (in that order); a socket produced by `accept`
has the suppressor applied twice — once inside `accept` itself and
once again inside `AsyncTcpStream::new`. -/
theorem constructors_establish_precondition :
    (∀ sock env, (AsyncTcpStream.new sock env).1 = .ok () →
      (AsyncTcpStream.new sock env).2 =
        [.suppress sock true, .tpioCreate sock]) ∧
    (∀ cr env, (AsyncTcpStream.connect cr env).1 = .ok () →
      ∃ sock, cr = .ok sock ∧
        (AsyncTcpStream.connect cr env).2 =
          [.suppress sock true, .tpioCreate sock]) ∧
    (∀ env, (AsyncTcpListener.bind env).1 = .ok () →
      ∃ sock, env.bindResult = .ok sock ∧
        (AsyncTcpListener.bind env).2 =
          [.suppress sock true, .tpioCreate sock]) ∧
    (∀ env, (AsyncTcpListener.accept env).1 = .ok →
      (AsyncTcpListener.accept env).2.2 =
        [.suppress env.newSock true, .suppress env.newSock true,
         .tpioCreate env.newSock] ∧
      suppressOkCount env.newSock (AsyncTcpListener.accept env).2.2 = 2 ∧
      tpioCreateCount env.newSock (AsyncTcpListener.accept env).2.2 = 1) := by
  have hnew : ∀ sock (env : StreamNewEnv),
      (AsyncTcpStream.new sock env).1 = .ok () →
      (AsyncTcpStream.new sock env).2 =
        [.suppress sock true, .tpioCreate sock] := by
    intro sock env hok
    rcases hs : env.suppress with e | ⟨⟩ <;>
      rcases ht : env.tpio with e | ⟨⟩ <;>
        simp [AsyncTcpStream.new, hs, ht] at hok ⊢
  refine ⟨hnew, ?_, ?_, ?_⟩
  · intro cr env hok
    rcases hcr : cr with e | sock
    · rw [hcr] at hok
      simp [AsyncTcpStream.connect] at hok
    · rw [hcr] at hok
      exact ⟨sock, rfl, hnew sock env hok⟩
  · intro env hok
    rcases hb : env.bindResult with e | sock <;>
      rcases hs : env.suppress with e | ⟨⟩ <;>
        rcases ha : env.getAcceptex with e | p <;>
          rcases ht : env.tpio with e | ⟨⟩ <;>
            simp [AsyncTcpListener.bind, hb, hs, ha, ht] at hok ⊢
  · intro env hok
    have htr : (AsyncTcpListener.accept env).2.2 =
        [.suppress env.newSock true, .suppress env.newSock true,
         .tpioCreate env.newSock] := by
      rcases hla : env.localAddr with e | fam
      · exfalso
        simp [AsyncTcpListener.accept, hla] at hok
      cases hsc : env.socketCreateOk
      · exfalso
        simp [AsyncTcpListener.accept, hla, hsc] at hok
      rcases hsup : env.suppress with e | ⟨⟩
      · exfalso
        simp [AsyncTcpListener.accept, hla, hsc, hsup] at hok
      by_cases hio : env.completion.io_result = 0
      · by_cases hn : env.completion.number_of_bytes_transferred = 0
        · by_cases hsk : env.setsockoptRc = 0
          · rcases hs2 : env.streamNew.suppress with e | ⟨⟩
            · exfalso
              simp [AsyncTcpListener.accept, AsyncTcpStream.new, hla, hsc,
                hsup, IocpResult.get_number_of_bytes_transferred, hio, hn,
                hsk, hs2] at hok
            rcases ht2 : env.streamNew.tpio with e | ⟨⟩
            · exfalso
              simp [AsyncTcpListener.accept, AsyncTcpStream.new, hla, hsc,
                hsup, IocpResult.get_number_of_bytes_transferred, hio, hn,
                hsk, hs2, ht2] at hok
            simp [AsyncTcpListener.accept, AsyncTcpStream.new, hla, hsc,
              hsup, IocpResult.get_number_of_bytes_transferred, hio, hn,
              hsk, hs2, ht2]
          · exfalso
            simp [AsyncTcpListener.accept, hla, hsc, hsup,
              IocpResult.get_number_of_bytes_transferred, hio, hn, hsk] at hok
        · exfalso
          simp [AsyncTcpListener.accept, hla, hsc, hsup,
            IocpResult.get_number_of_bytes_transferred, hio, hn] at hok
      · exfalso
        simp [AsyncTcpListener.accept, hla, hsc, hsup,
          IocpResult.get_number_of_bytes_transferred, hio] at hok
    refine ⟨htr, ?_, ?_⟩ <;>
      rw [htr] <;>
        simp [suppressOkCount, tpioCreateCount, List.countP_cons,
          List.countP_nil]

/-- Witness for `constructors_establish_precondition` at a concrete
all-successful environment for each constructor. -/
theorem constructors_establish_precondition_witness :
    (AsyncTcpStream.new 1 ⟨.ok (), .ok ()⟩).2 =
      [.suppress 1 true, .tpioCreate 1] ∧
    (AsyncTcpListener.accept
        ⟨2, .ok .v4, true, 0, .ok (), ⟨0, 0⟩, 0, ⟨.ok (), .ok ()⟩⟩).2.2 =
      [.suppress 2 true, .suppress 2 true, .tpioCreate 2] :=
  ⟨constructors_establish_precondition.1 1 ⟨.ok (), .ok ()⟩ rfl,
   ((constructors_establish_precondition.2.2.2
      ⟨2, .ok .v4, true, 0, .ok (), ⟨0, 0⟩, 0, ⟨.ok (), .ok ()⟩⟩) rfl).1⟩

end RustWindowsIo
